import Mathlib

/-!
Verification of the agentic-log-attacker workflow engine against its
natural-language specification.

The development shallowly embeds the Python source:
* `src/tools/gcp_logging_tool.py` — identifier sanitizer and the log query
  resolver `get_gcp_logs` with its filter-variation loop and the 24h→48h
  window escalation;
* `src/agents/supervisor.py` — the router `supervisor_agent` (post-LLM
  response processing, with Python local-variable semantics made explicit);
* `src/main.py` — the `AgentState` schema, the LangGraph channel merge
  (`operator.add` append channels vs last-value overwrite channels), the
  node functions and the graph edges;
* `src/agents/log_explorer.py` — the log-answer handler;
* `src/agents/github_issue_manager.py` — the issue filing loop.

External collaborators (the generative completion service, the log storage
query API, the issue tracker API, the `json` parser and the `re` engine)
are modelled as oracle parameters: each embedded function takes the
collaborator outcome as an argument, exactly at the call sites where the
Python code invokes them.  Machine clock readings are explicit `Int`
parameters (seconds since epoch); `timedelta(days=2)` is `172800` seconds.
-/

set_option autoImplicit false

namespace LogAttacker

/-- Python exception values observable at the embedded boundaries.
`valueError` carries `str(e)`; `apiError` stands for any exception raised by
an external collaborator call; `unboundLocal` is the Python
`UnboundLocalError` (reading a local variable that was never assigned). -/
inductive PyError where
  | valueError (msg : String)
  | apiError (msg : String)
  | unboundLocal
deriving DecidableEq, Repr

/-- Python `str(e)` for the embedded exception values. -/
def PyError.str : PyError → String
  | .valueError m => m
  | .apiError m => m
  | .unboundLocal => "local variable referenced before assignment"

/-- Python truthiness of an optional string: `None` and `""` are falsy. -/
def pyTruthy : Option String → Bool
  | none => false
  | some s => !s.isEmpty

/-- Python `s.startswith(p)` (char-list based so that the kernel can evaluate it). -/
def pyStartsWith (s p : String) : Bool := p.toList.isPrefixOf s.toList

/-- Python `s.endswith(p)`. -/
def pyEndsWith (s p : String) : Bool := p.toList.isSuffixOf s.toList

/-- Python `s.strip()`: remove leading and trailing whitespace. -/
def pyStrip (s : String) : String :=
  ⟨((s.toList.dropWhile Char.isWhitespace).reverse.dropWhile Char.isWhitespace).reverse⟩

/-- Python `s.lower()`. -/
def pyLower (s : String) : String := ⟨s.toList.map Char.toLower⟩

/-- Substring occurrence check over char lists. -/
def containsSubAux (pat : List Char) : List Char → Bool
  | [] => pat.isEmpty
  | c :: cs => pat.isPrefixOf (c :: cs) || containsSubAux pat cs

/-- Python `needle in hay` for strings (membership as substring). -/
def pyInStr (needle hay : String) : Bool := containsSubAux needle.toList hay.toList

/-- Left-to-right non-overlapping replacement over char lists; the `Nat`
argument counts characters still to be skipped from an occurrence already
replaced. -/
def replaceSubGo (pat rep : List Char) : Nat → List Char → List Char
  | _, [] => []
  | Nat.succ k, _c :: cs => replaceSubGo pat rep k cs
  | 0, c :: cs =>
    if pat.isPrefixOf (c :: cs) && !pat.isEmpty then
      rep ++ replaceSubGo pat rep (pat.length - 1) cs
    else c :: replaceSubGo pat rep 0 cs

/-- Python `s.replace(pat, rep)` (all occurrences, left to right). -/
def pyReplace (s pat rep : String) : String :=
  ⟨replaceSubGo pat.toList rep.toList 0 s.toList⟩

/-- Python `s.splitlines()`-style split at newline characters. -/
def splitLinesList : List Char → List (List Char)
  | [] => [[]]
  | c :: cs =>
    let r := splitLinesList cs
    if c = '\n' then [] :: r
    else match r with
      | h :: t => (c :: h) :: t
      | [] => [[c]]

/-- Python `len(s.splitlines())` (up to the treatment of a trailing newline,
which no claim depends on). -/
def pyLineCount (s : String) : Nat := (splitLinesList s.toList).length

/-- Python `"\n".join(lines)` -/
def joinLines (lines : List String) : String :=
  String.intercalate "\n" lines

/-! ## `src/models/service_types.py` -/

/-- The `ServiceType` enum from `src/models/service_types.py`. -/
inductive ServiceType where
  | cloud_run
  | cloud_build
  | cloud_functions
  | gce
  | gke
  | app_engine
deriving DecidableEq, Repr

/-- The `ServiceType(service_type)`: parse the string value of the enum
(raises `ValueError` on anything else, here `none`). -/
def ServiceType.ofString : String → Option ServiceType
  | "cloud_run" => some .cloud_run
  | "cloud_build" => some .cloud_build
  | "cloud_functions" => some .cloud_functions
  | "gce" => some .gce
  | "gke" => some .gke
  | "app_engine" => some .app_engine
  | _ => none

/-- One entry of `SERVICE_CONFIG`. -/
structure ServiceConfigEntry where
  resource_type : String
  filter_variations : List String
deriving DecidableEq, Repr

/-- The static `SERVICE_CONFIG` table from `src/models/service_types.py`,
mapping each service type to its resource type and ordered filter
templates (most specific primary label match first). -/
def SERVICE_CONFIG : ServiceType → ServiceConfigEntry
  | .cloud_run =>
    { resource_type := "cloud_run_revision",
      filter_variations :=
        ["resource.labels.service_name = \"{service_name}\"",
         "resource.labels.configuration_name = \"{service_name}\""] }
  | .cloud_build =>
    { resource_type := "build",
      filter_variations :=
        ["resource.labels.build_id = \"{service_name}\"",
         "resource.labels.build_trigger_id = \"{service_name}\"",
         "logName=\"projects/{project_id}/logs/cloudbuild\""] }
  | .cloud_functions =>
    { resource_type := "cloud_function",
      filter_variations :=
        ["resource.labels.function_name = \"{service_name}\""] }
  | .gce =>
    { resource_type := "gce_instance",
      filter_variations :=
        ["resource.labels.instance_id = \"{service_name}\"",
         "labels.instance_name = \"{service_name}\""] }
  | .gke =>
    { resource_type := "k8s_container",
      filter_variations :=
        ["resource.labels.cluster_name = \"{service_name}\"",
         "resource.labels.namespace_name = \"{service_name}\"",
         "resource.labels.pod_name = \"{service_name}\""] }
  | .app_engine =>
    { resource_type := "gae_app",
      filter_variations :=
        ["resource.labels.module_id = \"{service_name}\"",
         "resource.labels.version_id = \"{service_name}\""] }

/-! ## `src/tools/gcp_logging_tool.py` -/

/-- A character admitted by the allow-list regex `^[a-zA-Z0-9._-]+$`. -/
def isAllowedChar (c : Char) : Bool :=
  c.isAlpha || c.isDigit || c = '.' || c = '_' || c = '-'

/-- The `sanitize_identifier` from `src/tools/gcp_logging_tool.py`: pure
allow-list validation, returning the identifier unchanged on success. -/
def sanitize_identifier (identifier : String) (identifier_type : String) :
    Except PyError String :=
  if identifier.isEmpty then
    .error (.valueError (identifier_type ++ " cannot be empty"))
  else if !(identifier.toList.all isAllowedChar) then
    .error (.valueError ("Invalid " ++ identifier_type ++ ": \x27" ++ identifier ++
      "\x27. Only alphanumeric characters, hyphens, underscores, and dots are allowed."))
  else if identifier.length > 255 then
    .error (.valueError (identifier_type ++ " exceeds maximum length of 255 characters"))
  else
    .ok identifier

/-- The `filter_template.format(service_name=..., project_id=...)`: substitute
the two placeholders of a filter template. -/
def substPlaceholders (template service_name project_id : String) : String :=
  pyReplace (pyReplace template "{service_name}" service_name) "{project_id}" project_id

/-- A query time window `(start, end)`, in seconds since epoch.  The source
renders it into the filter string as the two `timestamp` clauses; the
embedding keeps it structural so that the window actually queried is
directly observable. -/
structure TimeWindow where
  startT : Int
  endT : Int
deriving DecidableEq, Repr

/-- The `build_filter_variations` from `src/tools/gcp_logging_tool.py`: the
ordered, fully substituted filter strings (without the time clause, which
is carried separately in `LogQuery`). -/
def build_filter_variations (config : ServiceConfigEntry)
    (service_name project_id : String) : List String :=
  config.filter_variations.map (fun filter_template =>
    "resource.type = \"" ++ config.resource_type ++ "\" AND " ++
      substPlaceholders filter_template service_name project_id ++
      " AND severity >= DEFAULT")

/-- One `client.list_entries` call: the substituted filter string plus the
time window rendered into the full filter by the source. -/
structure LogQuery where
  filter : String
  window : TimeWindow
deriving DecidableEq, Repr

/-- The ordered `client.list_entries` queries attempted for one window. -/
def logQueriesFor (st : ServiceType) (service_name project_id : String)
    (w : TimeWindow) : List LogQuery :=
  (build_filter_variations (SERVICE_CONFIG st) service_name project_id).map
    (fun f => ⟨f, w⟩)

/-- Outcome of the `for log_filter in filter_variations` loop. -/
inductive LoopOut where
  | found (entries : List String)
  | exhausted
  | raised (e : PyError)
deriving DecidableEq, Repr

/-- The filter loop of `get_gcp_logs` (lines 140-154 and 166-180): try each
query in order; `[str(entry) for i, entry in enumerate(entries) if i < limit]`
truncates to `limit`; stop at the first non-empty result; a raised
exception aborts the whole loop (the source wraps it in one `try`).  Also
returns the trace of queries actually issued, in order. -/
def runFilters (client : LogQuery → Except PyError (List String)) (limit : Nat) :
    List LogQuery → List LogQuery × LoopOut
  | [] => ([], .exhausted)
  | q :: rest =>
    match client q with
    | .error e => ([q], .raised e)
    | .ok entries =>
      let log_entries := entries.take limit
      if log_entries.isEmpty then
        let r := runFilters client limit rest
        (q :: r.1, r.2)
      else
        ([q], .found log_entries)

/-- The `(logs, next_page_token, error)` triple returned by `get_gcp_logs`. -/
structure FetchResult where
  logs : String
  pageToken : Option String
  error : Option PyError
deriving DecidableEq, Repr

/-- The `get_gcp_logs` from `src/tools/gcp_logging_tool.py`, with the trace of
issued queries.  Parameters that the source obtains from the environment:
`client` (the GCP logging client), `project_id`
(`os.environ["GOOGLE_CLOUD_PROJECT"]`), `now1`/`now2` (the two
`datetime.utcnow()` readings, the second taken when escalating). -/
def get_gcp_logsTr (client : LogQuery → Except PyError (List String))
    (project_id : String) (now1 now2 : Int)
    (service_name : String) (service_type : String) (limit : Nat)
    (start_time end_time : Option Int) : List LogQuery × FetchResult :=
  match sanitize_identifier service_name "service_name" with
  | .error e => ([], ⟨"", none, some e⟩)
  | .ok service_name =>
  match sanitize_identifier project_id "project_id" with
  | .error e => ([], ⟨"", none, some e⟩)
  | .ok project_id =>
  match ServiceType.ofString service_type with
  | none => ([], ⟨"", none, some (.valueError ("Unsupported service type: " ++
      service_type ++ ". Supported types: cloud_run, cloud_build, cloud_functions, gce, gke, app_engine"))⟩)
  | some service_type_enum =>
    -- explicit window: reject > 48 hours, never escalate;
    -- otherwise default 24-hour lookback with automatic 48-hour retry
    let explicit : Option TimeWindow :=
      match start_time, end_time with
      | some s, some e => some ⟨s, e⟩
      | _, _ => none
    match explicit with
    | some w =>
      if w.endT - w.startT > 172800 then
        ([], ⟨"", none, some (.valueError "Time range cannot exceed 48 hours.")⟩)
      else
        match runFilters client limit (logQueriesFor service_type_enum service_name project_id w) with
        | (tr, .found entries) => (tr, ⟨joinLines entries, none, none⟩)
        | (tr, .raised e) => (tr, ⟨"", none, some e⟩)
        | (tr, .exhausted) => (tr, ⟨"", none, none⟩)
    | none =>
      let w24 : TimeWindow := ⟨now1 - 86400, now1⟩
      match runFilters client limit (logQueriesFor service_type_enum service_name project_id w24) with
      | (tr, .found entries) => (tr, ⟨joinLines entries, none, none⟩)
      | (tr, .raised e) => (tr, ⟨"", none, some e⟩)
      | (tr, .exhausted) =>
        -- "No logs found in 24-hour window. Retrying with 48-hour window..."
        let w48 : TimeWindow := ⟨now2 - 172800, now2⟩
        match runFilters client limit (logQueriesFor service_type_enum service_name project_id w48) with
        | (tr2, .found entries) => (tr ++ tr2, ⟨joinLines entries, none, none⟩)
        | (tr2, .raised e) => (tr ++ tr2, ⟨"", none, some e⟩)
        | (tr2, .exhausted) => (tr ++ tr2, ⟨"", none, none⟩)

/-- The `get_gcp_logs` proper: the returned triple, trace projected away. -/
def get_gcp_logs (client : LogQuery → Except PyError (List String))
    (project_id : String) (now1 now2 : Int)
    (service_name : String) (service_type : String) (limit : Nat)
    (start_time end_time : Option Int) : FetchResult :=
  (get_gcp_logsTr client project_id now1 now2 service_name service_type limit
    start_time end_time).2

/-! ## `src/agents/supervisor.py` -/

/-- The fields the router reads out of a successfully parsed JSON response
(`parsed_response.get(...)`, so each may be absent). -/
structure ParsedRoute where
  next_agent : Option String
  repo_url : Option String
  issue_content : Option String
deriving DecidableEq, Repr

/-- The dict returned by `supervisor_agent` on a normal return. -/
structure RouteResult where
  next_agent : Option String
  repo_url : Option String
  issue_content : Option String
  history : List String
deriving DecidableEq, Repr

/-- Python `str(x)` for an optional string (`None` prints as `"None"`),
used by the f-string `f"Routing to {next_agent}"`. -/
def pyStrOpt : Option String → String
  | none => "None"
  | some s => s

/-- Markdown fence cleanup in `supervisor_agent`:
`response_text[len("```json\n"):-len("\n```")]` when the text starts with
` ```json ` and ends with ` ``` `. -/
def stripJsonFences (s : String) : String :=
  if pyStartsWith s "```json" && pyEndsWith s "```" then
    (s.drop 8).dropRight 4
  else s

/-- The `supervisor_agent` from `src/agents/supervisor.py`, lines 63-81: the
processing of the completion response.  `jsonParse` is the `json.loads`
collaborator (`none` = `JSONDecodeError`); `rawResponse` is
`response.text`.  The locals triple makes Python assignment explicit:
`none` means the local was never assigned, and the final `return`
statement raises `UnboundLocalError` when it reads such a local.  In the
`except` branch only `next_agent` and `repo_url` are assigned;
`issue_content` is not. -/
def supervisor_agent (jsonParse : String → Option ParsedRoute)
    (rawResponse : String) : Except PyError RouteResult :=
  let response_text := stripJsonFences (pyStrip rawResponse)
  let locals : Option (Option String) × Option (Option String) × Option (Option String) :=
    match jsonParse response_text with
    | some parsed_response =>
      (some parsed_response.next_agent, some parsed_response.repo_url,
       some parsed_response.issue_content)
    | none =>
      -- fallback: next_agent = response_text, repo_url = None
      (some (some response_text), some none, none)
  match locals with
  | (some next_agent, some repo_url, some issue_content) =>
    .ok ⟨next_agent, repo_url, issue_content,
      ["Routing to " ++ pyStrOpt next_agent]⟩
  | _ => .error .unboundLocal

/-! ## `src/main.py`: state schema, channel merge, nodes, graph -/

/-- An `Issue` from `src/agents/issue_creation_agent.py`. -/
structure Issue where
  description : String
  priority : String
  log_entries : List String
deriving DecidableEq, Repr

/-- The `AgentState` from `src/main.py` lines 49-61.  Optional fields model
keys that may be absent or `None` in the LangGraph state dict; `messages`
is kept as the list of message texts. -/
structure AgentState where
  service_name : Option String := none
  service_type : Option String := none
  git_repo_url : Option String := none
  messages : List String := []
  issues : List Issue := []
  pull_requests : List String := []
  orchestrator_history : List String := []
  log_reviewer_history : List String := []
  github_issue_manager_history : List String := []
  suggested_fix : Option String := none
  next_agent : Option String := none
  issue_content : Option String := none
deriving DecidableEq, Repr

/-- A partial state update returned by a graph node.  `messages`,
`orchestrator_history` and `log_reviewer_history` are
`Annotated[..., operator.add]` append channels; every other field is a
last-value channel, overwritten when the key is present in the returned
dict (`none` here = key absent from the dict, `some v` = key present with
value `v`). -/
structure StateUpdate where
  messages : List String := []
  orchestrator_history : List String := []
  log_reviewer_history : List String := []
  service_name : Option (Option String) := none
  service_type : Option (Option String) := none
  git_repo_url : Option (Option String) := none
  next_agent : Option (Option String) := none
  issue_content : Option (Option String) := none
  issues : Option (List Issue) := none
  github_issue_manager_history : Option (List String) := none
  suggested_fix : Option (Option String) := none
deriving DecidableEq, Repr

/-- The LangGraph channel merge: append for `operator.add` channels,
last-value overwrite for the rest. -/
def applyUpdate (st : AgentState) (u : StateUpdate) : AgentState :=
  { st with
    messages := st.messages ++ u.messages,
    orchestrator_history := st.orchestrator_history ++ u.orchestrator_history,
    log_reviewer_history := st.log_reviewer_history ++ u.log_reviewer_history,
    service_name := u.service_name.getD st.service_name,
    service_type := u.service_type.getD st.service_type,
    git_repo_url := u.git_repo_url.getD st.git_repo_url,
    next_agent := u.next_agent.getD st.next_agent,
    issue_content := u.issue_content.getD st.issue_content,
    issues := u.issues.getD st.issues,
    github_issue_manager_history :=
      u.github_issue_manager_history.getD st.github_issue_manager_history,
    suggested_fix := u.suggested_fix.getD st.suggested_fix }

/-- The error message of the no-service-name terminal branch of
`supervisor_node`. -/
def noServiceNameMsg : String :=
  "No service name specified. Please provide a service name in your query (e.g., \x27cloud run service my-service\x27, \x27cloud build my-build\x27) or in the API request."

/-- The `supervisor_node` from `src/main.py` lines 63-142.  `route` is the
dict returned by the `supervisor_agent` call (the completion collaborator
is behind it); `extracted` is the outcome of the regex service-pattern
extraction over the user query (`some (name, type)` when a pattern
matched with a valid name), consulted only when the state carries no
truthy `service_name`. -/
def supervisor_node (route : RouteResult) (extracted : Option (String × String))
    (st : AgentState) : StateUpdate :=
  let service_name := st.service_name
  let service_type := st.service_type.getD "cloud_run"
  let resolved : Option (String × String) :=
    if pyTruthy service_name then some (service_name.getD "", service_type)
    else match extracted with
      | some (n, t) => some (n, t)
      | none => none
  match resolved with
  | none =>
    { messages := [noServiceNameMsg],
      next_agent := some (some "END"),
      service_name := some none,
      service_type := some (some "cloud_run") }
  | some (n, t) =>
    { orchestrator_history := route.history,
      service_name := some (some n),
      service_type := some (some t),
      git_repo_url := some route.repo_url,
      next_agent := some route.next_agent,
      issue_content := some route.issue_content }

/-- The `log_explorer_node` from `src/main.py` lines 144-162: the update dict
`{"log_reviewer_history": [result], "orchestrator_history":
state["orchestrator_history"] + [result]}` (the second value is fed into
an append channel). -/
def log_explorer_node_update (result : String) (st : AgentState) : StateUpdate :=
  { log_reviewer_history := [result],
    orchestrator_history := st.orchestrator_history ++ [result] }

/-- The `issue_creation_node` update dict: `{"issues": issues}`. -/
def issue_creation_node_update (issues : List Issue) : StateUpdate :=
  { issues := some issues }

/-- The `github_issue_manager_node` update dict on the normal path:
`{"github_issue_manager_history": history}`. -/
def github_issue_manager_node_update (history : List String) : StateUpdate :=
  { github_issue_manager_history := some history }

/-- The `code_fixer_node` update dict when issues exist. -/
def code_fixer_node_update (suggested_fix : String) : StateUpdate :=
  { suggested_fix := some (some suggested_fix) }

/-- The `solutions_node` update dict. -/
def solutions_node_update (solution : String) : StateUpdate :=
  { suggested_fix := some (some solution) }

/-- The `ask_for_repo_url_node` update dict. -/
def ask_for_repo_url_node_update : StateUpdate :=
  { orchestrator_history :=
      ["Please provide the full GitHub repository URL (e.g., https://github.com/owner/repo)."] }

/-- The graph nodes added in `src/main.py` lines 250-256. -/
inductive Node where
  | supervisor
  | log_explorer
  | issue_creation
  | github_issue_manager
  | code_fixer
  | solutions
  | ask_for_repo_url
deriving DecidableEq, Repr

/-- The `route_after_log_explorer` from `src/main.py` lines 258-267. -/
def route_after_log_explorer (st : AgentState) : String :=
  if pyTruthy st.git_repo_url then "issue_creation" else "end"

/-- The edge relation of the compiled graph (`src/main.py` lines 269-289):
`set_entry_point("supervisor")`; the unconditional edge
`supervisor → log_explorer`; the conditional edges after `log_explorer`
keyed by `route_after_log_explorer`; `issue_creation →
github_issue_manager`; and the edges to `END` (`none`). -/
def graphNext (n : Node) (st : AgentState) : Option Node :=
  match n with
  | .supervisor => some .log_explorer
  | .log_explorer =>
    if route_after_log_explorer st = "issue_creation" then some .issue_creation
    else none
  | .issue_creation => some .github_issue_manager
  | .github_issue_manager => none
  | .code_fixer => none
  | .solutions => none
  | .ask_for_repo_url => none

/-- The `workflow.set_entry_point("supervisor")`. -/
def entryPoint : Node := .supervisor

/-- The handler node the spec associates with each router decision string
(spec §4.4 and §2 control flow).  This definition follows the SPEC, not
the source; it exists to compare the spec routing contract with the
compiled graph. -/
def specDecisionTarget : String → Option Node
  | "log_explorer" => some .log_explorer
  | "github_issue_manager" => some .github_issue_manager
  | "solutions_agent" => some .solutions
  | "ask_for_repo_url" => some .ask_for_repo_url
  | _ => none

/-! ## `src/agents/log_explorer.py` -/

/-- The no-logs message of `log_explorer_agent` (built from the service
type and name). -/
def noLogsFoundMsg (service_name service_type : String) : String :=
  "No logs found for " ++ service_type ++ " service \x27" ++ service_name ++ "\x27."

/-- The fetch-error message of `log_explorer_agent`. -/
def fetchErrorMsg (e : PyError) : String :=
  "I couldn\x27t fetch any logs. Please ensure the service name is correct and that I have the right permissions. Error: " ++ e.str

/-- The `log_explorer_agent` from `src/agents/log_explorer.py`.  `fetch` is
the `get_gcp_logs` result; `summarize` and `answer` are the two
`model.generate_content(...).text` collaborator calls, which the source
invokes with NO surrounding `try`/`except`, so a raised exception
propagates out of the handler (`Except.error`).  A returned `.ok` value is
a normal return of the handler. -/
def log_explorer_agent (fetch : FetchResult)
    (summarize answer : Except PyError String)
    (service_name service_type user_query : String) : Except PyError String :=
  match fetch.error with
  | some e => .ok (fetchErrorMsg e)
  | none =>
    if fetch.logs.isEmpty then
      .ok (noLogsFoundMsg service_name service_type)
    else
      let needSummary := pyLineCount fetch.logs > 200
        || pyInStr "summarize" (pyLower user_query)
        || pyInStr "summary" (pyLower user_query)
      match (if needSummary then summarize else .ok fetch.logs) with
      | .error e => .error e
      | .ok _processed_logs =>
        match answer with
        | .error e => .error e
        | .ok text => .ok text

/-- The success/error shape of the `A2AResponse` built by `a2a_execute`
(`src/main.py` lines 496-520). -/
structure A2AOutcome where
  success : Bool
  error : Option String
deriving DecidableEq, Repr

/-- The catch-all boundary of `a2a_execute`: a workflow invocation that
raises is converted into a failed `A2AResponse` with `error=str(e)`; a
normal result yields `success=True`. -/
def a2a_execute_outcome (workflowResult : Except PyError AgentState) : A2AOutcome :=
  match workflowResult with
  | .ok _ => ⟨true, none⟩
  | .error e => ⟨false, some e.str⟩

/-! ## `src/agents/github_issue_manager.py` -/

/-- An existing tracker item as returned by `get_github_issues`
(`src/tools/github_tool.py`): `{"title", "number", "state", "labels"}`. -/
structure ExistingIssue where
  title : String
  number : Nat
  state : String
  labels : List String
deriving DecidableEq, Repr

/-- The inner `for existing_issue in existing_issues` loop of
`github_issue_manager_agent` (lines 83-100): the first existing item with
the same title that is open, or closed with the `"wontfix"` label,
produces the skip reason; matching items in any other state are passed
over. -/
def skipReasonFor (title : String) : List ExistingIssue → Option String
  | [] => none
  | e :: rest =>
    if e.title = title then
      if e.state = "open" then
        some ("Issue \x27" ++ title.take 100 ++
          "...\x27 already exists and is open (#" ++ toString e.number ++ ")")
      else if e.state = "closed" && e.labels.contains "wontfix" then
        some ("Issue \x27" ++ title.take 100 ++
          "...\x27 is closed with \x27wontfix\x27 label (#" ++ toString e.number ++ ")")
      else skipReasonFor title rest
    else skipReasonFor title rest

/-- The accumulator of the filing loop: the counters and lists of
`github_issue_manager_agent`, plus the trace of titles for which
`repo.create_issue` was called. -/
structure FilingAcc where
  created_issues : Nat := 0
  skipped_issues : Nat := 0
  skipped_reasons : List String := []
  error_messages : List String := []
  createdTitles : List String := []
deriving DecidableEq, Repr

/-- One iteration of the `for i, issue in enumerate(issues)` loop of
`github_issue_manager_agent` (lines 74-125).  `existing_titles` is the
title list computed once before the loop; `createErr title = some msg`
models `repo.create_issue` raising (caught by the per-issue
`try`/`except`), `none` a successful creation. -/
def filingStep (existing_titles : List String) (existing : List ExistingIssue)
    (createErr : String → Option String) (acc : FilingAcc) (issue : Issue) :
    FilingAcc :=
  let title := issue.description.take 256
  let acc1 :=
    if existing_titles.contains title then
      match skipReasonFor title existing with
      | some reason =>
        { acc with skipped_issues := acc.skipped_issues + 1,
                   skipped_reasons := acc.skipped_reasons ++ [reason] }
      | none => acc
    else acc
  -- source comment: Only create if we did not skip in the above logic
  if !(existing_titles.contains title)
      || (existing_titles.contains title
          && !(acc1.skipped_reasons.any
                (fun r => pyStartsWith r ("Issue \x27" ++ title.take 100)))) then
    match createErr title with
    | none =>
      { acc1 with created_issues := acc1.created_issues + 1,
                  createdTitles := acc1.createdTitles ++ [title] }
    | some msg =>
      { acc1 with
          error_messages := acc1.error_messages ++
            ["Error creating issue \x27" ++ title.take 100 ++ "...\x27: " ++ msg],
          createdTitles := acc1.createdTitles ++ [title] }
  else acc1

/-- The `for i, issue in enumerate(issues)` loop, issue by issue. -/
def filingLoop (existing_titles : List String) (existing : List ExistingIssue)
    (createErr : String → Option String) : FilingAcc → List Issue → FilingAcc
  | acc, [] => acc
  | acc, issue :: rest =>
    filingLoop existing_titles existing createErr
      (filingStep existing_titles existing createErr acc issue) rest

/-- The filing loop of `github_issue_manager_agent`: the existing titles
are read once (`existing_titles = [issue["title"] for issue in
existing_issues]`, lines 60-61) and never updated as items are created. -/
def github_issue_filing (existing : List ExistingIssue)
    (createErr : String → Option String) (issues : List Issue) : FilingAcc :=
  let existing_titles := existing.map (·.title)
  filingLoop existing_titles existing createErr {} issues

/-- The final status message built from the loop results (lines 127-145). -/
def filingStatusMessage (acc : FilingAcc) : String :=
  let parts1 := ["Created " ++ toString acc.created_issues ++
    " GitHub issue(s), skipped " ++ toString acc.skipped_issues ++ "."]
  let parts2 :=
    if acc.skipped_issues > 0 then
      parts1 ++ ["\n\nSkipped issues:"] ++ acc.skipped_reasons.map ("  - " ++ ·)
    else parts1
  let parts3 :=
    if !acc.error_messages.isEmpty then
      parts2 ++ ["\n\nErrors encountered:"] ++ acc.error_messages.map ("  - " ++ ·)
    else parts2
  joinLines parts3

/-! ## Helper lemmas about the filter loop -/

theorem runFilters_cons_error {client : LogQuery → Except PyError (List String)}
    {limit : Nat} {q : LogQuery} {rest : List LogQuery} {e : PyError}
    (h : client q = .error e) :
    runFilters client limit (q :: rest) = ([q], .raised e) := by
  simp [runFilters, h]

theorem runFilters_cons_empty {client : LogQuery → Except PyError (List String)}
    {limit : Nat} {q : LogQuery} {rest : List LogQuery}
    (h : client q = .ok []) :
    runFilters client limit (q :: rest) =
      ((q :: (runFilters client limit rest).1), (runFilters client limit rest).2) := by
  simp [runFilters, h]

theorem runFilters_cons_found {client : LogQuery → Except PyError (List String)}
    {limit : Nat} {q : LogQuery} {rest : List LogQuery} {l : List String}
    (h : client q = .ok l) (h2 : l.take limit ≠ []) :
    runFilters client limit (q :: rest) = ([q], .found (l.take limit)) := by
  simp only [runFilters, h]
  rw [if_neg (by simpa [List.isEmpty_iff] using h2)]

theorem runFilters_all_empty {client : LogQuery → Except PyError (List String)}
    {limit : Nat} : ∀ {qs : List LogQuery}, (∀ q ∈ qs, client q = .ok []) →
    runFilters client limit qs = (qs, .exhausted)
  | [], _ => rfl
  | q :: rest, h => by
    rw [runFilters_cons_empty (h q (by simp)),
      runFilters_all_empty (fun p hp => h p (by simp [hp]))]

theorem runFilters_append_empty {client : LogQuery → Except PyError (List String)}
    {limit : Nat} : ∀ {pre rest : List LogQuery}, (∀ q ∈ pre, client q = .ok []) →
    runFilters client limit (pre ++ rest) =
      (pre ++ (runFilters client limit rest).1, (runFilters client limit rest).2)
  | [], rest, _ => by simp
  | q :: pre, rest, h => by
    rw [List.cons_append, runFilters_cons_empty (h q (by simp)),
      runFilters_append_empty (fun p hp => h p (by simp [hp]))]
    simp

theorem runFilters_trace_take {client : LogQuery → Except PyError (List String)}
    {limit : Nat} : ∀ (qs : List LogQuery),
    ∃ k, (runFilters client limit qs).1 = qs.take k
  | [] => ⟨0, rfl⟩
  | q :: rest => by
    unfold runFilters
    cases hc : client q with
    | error e => exact ⟨1, by simp⟩
    | ok l =>
      by_cases he : (l.take limit).isEmpty
      · obtain ⟨k, hk⟩ := @runFilters_trace_take client limit rest
        exact ⟨k + 1, by simp [he, hk]⟩
      · exact ⟨1, by simp [he]⟩

theorem logQueriesFor_window {stE : ServiceType} {sn pid : String} {w : TimeWindow}
    {q : LogQuery} (h : q ∈ logQueriesFor stE sn pid w) : q.window = w := by
  simp only [logQueriesFor, List.mem_map] at h
  obtain ⟨f, _, rfl⟩ := h
  rfl

/-! ## Reduction lemmas for `get_gcp_logsTr` -/

theorem get_gcp_logsTr_explicit {client : LogQuery → Except PyError (List String)}
    {pid sn ty : String} {stE : ServiceType} {now1 now2 s e : Int} {limit : Nat}
    (hsn : sanitize_identifier sn "service_name" = .ok sn)
    (hpid : sanitize_identifier pid "project_id" = .ok pid)
    (hty : ServiceType.ofString ty = some stE)
    (hle : ¬(e - s > 172800)) :
    get_gcp_logsTr client pid now1 now2 sn ty limit (some s) (some e) =
      (match runFilters client limit (logQueriesFor stE sn pid ⟨s, e⟩) with
       | (tr, .found entries) => (tr, ⟨joinLines entries, none, none⟩)
       | (tr, .raised e2) => (tr, ⟨"", none, some e2⟩)
       | (tr, .exhausted) => (tr, ⟨"", none, none⟩)) := by
  unfold get_gcp_logsTr
  rw [hsn, hpid, hty]
  simp [hle]

theorem get_gcp_logsTr_reject {client : LogQuery → Except PyError (List String)}
    {pid sn ty : String} {stE : ServiceType} {now1 now2 s e : Int} {limit : Nat}
    (hsn : sanitize_identifier sn "service_name" = .ok sn)
    (hpid : sanitize_identifier pid "project_id" = .ok pid)
    (hty : ServiceType.ofString ty = some stE)
    (hgt : e - s > 172800) :
    get_gcp_logsTr client pid now1 now2 sn ty limit (some s) (some e) =
      ([], ⟨"", none, some (.valueError "Time range cannot exceed 48 hours.")⟩) := by
  unfold get_gcp_logsTr
  rw [hsn, hpid, hty]
  simp [hgt]

theorem get_gcp_logsTr_default {client : LogQuery → Except PyError (List String)}
    {pid sn ty : String} {stE : ServiceType} {now1 now2 : Int} {limit : Nat}
    (hsn : sanitize_identifier sn "service_name" = .ok sn)
    (hpid : sanitize_identifier pid "project_id" = .ok pid)
    (hty : ServiceType.ofString ty = some stE) :
    get_gcp_logsTr client pid now1 now2 sn ty limit none none =
      (match runFilters client limit (logQueriesFor stE sn pid ⟨now1 - 86400, now1⟩) with
       | (tr, .found entries) => (tr, ⟨joinLines entries, none, none⟩)
       | (tr, .raised e2) => (tr, ⟨"", none, some e2⟩)
       | (tr, .exhausted) =>
         match runFilters client limit (logQueriesFor stE sn pid ⟨now2 - 172800, now2⟩) with
         | (tr2, .found entries) => (tr ++ tr2, ⟨joinLines entries, none, none⟩)
         | (tr2, .raised e2) => (tr ++ tr2, ⟨"", none, some e2⟩)
         | (tr2, .exhausted) => (tr ++ tr2, ⟨"", none, none⟩)) := by
  unfold get_gcp_logsTr
  rw [hsn, hpid, hty]

/-! ## Claim C5 -/

/-- C5: during a `get_gcp_logs` run, a query attempt returning an empty
result always proceeds to the next filter; later attempts are skipped only
when an attempt raises, in which case the function returns an empty
sequence with a populated error — distinct from the empty-sequence,
no-error result of exhausting all filters. -/
theorem empty_result_proceeds_raise_aborts
    (client : LogQuery → Except PyError (List String)) (limit : Nat) :
    (∀ (q : LogQuery) (rest : List LogQuery), client q = .ok [] →
      runFilters client limit (q :: rest) =
        ((q :: (runFilters client limit rest).1), (runFilters client limit rest).2)) ∧
    (∀ (q : LogQuery) (rest : List LogQuery) (e : PyError), client q = .error e →
      runFilters client limit (q :: rest) = ([q], .raised e)) ∧
    (∀ (sn pid ty : String) (stE : ServiceType) (now1 now2 s eT : Int),
      sanitize_identifier sn "service_name" = .ok sn →
      sanitize_identifier pid "project_id" = .ok pid →
      ServiceType.ofString ty = some stE →
      eT - s ≤ 172800 →
      (∀ (tr : List LogQuery) (e : PyError),
        runFilters client limit (logQueriesFor stE sn pid ⟨s, eT⟩) = (tr, .raised e) →
        get_gcp_logsTr client pid now1 now2 sn ty limit (some s) (some eT) =
          (tr, ⟨"", none, some e⟩) ∧
        (⟨"", none, some e⟩ : FetchResult) ≠ ⟨"", none, none⟩) ∧
      (∀ (tr : List LogQuery),
        runFilters client limit (logQueriesFor stE sn pid ⟨s, eT⟩) = (tr, .exhausted) →
        get_gcp_logsTr client pid now1 now2 sn ty limit (some s) (some eT) =
          (tr, ⟨"", none, none⟩))) := by
  refine ⟨fun q rest h => runFilters_cons_empty h,
    fun q rest e h => runFilters_cons_error h,
    fun sn pid ty stE now1 now2 s eT hsn hpid hty hle => ⟨?_, ?_⟩⟩
  · intro tr e hr
    rw [get_gcp_logsTr_explicit hsn hpid hty (by omega), hr]
    exact ⟨rfl, by simp⟩
  · intro tr hr
    rw [get_gcp_logsTr_explicit hsn hpid hty (by omega), hr]

/-- Witness for C5: a client whose first query attempt raises an auth
failure; the fetch skips the second cloud-run filter and returns an empty
sequence with the populated error. -/
theorem empty_result_proceeds_raise_aborts_witness :
    get_gcp_logsTr (fun _ => .error (.apiError "auth failure")) "proj" 0 0
        "svc" "cloud_run" 10 (some 0) (some 3600) =
      ([⟨"resource.type = \"cloud_run_revision\" AND resource.labels.service_name = \"svc\" AND severity >= DEFAULT",
         ⟨0, 3600⟩⟩],
       ⟨"", none, some (.apiError "auth failure")⟩) := by
  have h := ((empty_result_proceeds_raise_aborts
    (fun _ => .error (.apiError "auth failure")) 10).2.2 "svc" "proj" "cloud_run"
    .cloud_run 0 0 0 3600 rfl rfl rfl (by decide)).1
  exact (h _ _ rfl).1

/-! ## Claim C6 -/

/-- C6: without an explicit time window, when every candidate filter over
the default 24-hour window yields zero entries, the filter set is rebuilt
over a 48-hour window and the ordered filters are retried exactly once
(the full trace is the 24-hour pass followed by a single 48-hour pass and
nothing more); entries found in the escalated window are returned, and if
none are found the result is an empty sequence with no error. -/
theorem escalation_once_then_empty_no_error
    (client : LogQuery → Except PyError (List String)) (limit : Nat)
    (sn pid ty : String) (stE : ServiceType) (now1 now2 : Int)
    (hsn : sanitize_identifier sn "service_name" = .ok sn)
    (hpid : sanitize_identifier pid "project_id" = .ok pid)
    (hty : ServiceType.ofString ty = some stE)
    (hempty : ∀ q ∈ logQueriesFor stE sn pid ⟨now1 - 86400, now1⟩, client q = .ok []) :
    (∀ (tr : List LogQuery) (entries : List String),
      runFilters client limit (logQueriesFor stE sn pid ⟨now2 - 172800, now2⟩) =
        (tr, .found entries) →
      get_gcp_logsTr client pid now1 now2 sn ty limit none none =
        (logQueriesFor stE sn pid ⟨now1 - 86400, now1⟩ ++ tr,
         ⟨joinLines entries, none, none⟩)) ∧
    (∀ (tr : List LogQuery),
      runFilters client limit (logQueriesFor stE sn pid ⟨now2 - 172800, now2⟩) =
        (tr, .exhausted) →
      get_gcp_logsTr client pid now1 now2 sn ty limit none none =
        (logQueriesFor stE sn pid ⟨now1 - 86400, now1⟩ ++ tr,
         ⟨"", none, none⟩)) := by
  constructor
  · intro tr entries hr
    rw [get_gcp_logsTr_default hsn hpid hty, runFilters_all_empty hempty, hr]
  · intro tr hr
    rw [get_gcp_logsTr_default hsn hpid hty, runFilters_all_empty hempty, hr]

/-- Witness for C6: both 24-hour cloud-run filters return empty, the first
48-hour filter returns one entry; the escalated entry is returned and the
trace shows exactly one escalation pass. -/
theorem escalation_once_then_empty_no_error_witness :
    get_gcp_logsTr
        (fun q => if q.window.startT = -172800 then .ok ["escalated entry"] else .ok [])
        "proj" 0 0 "svc" "cloud_run" 10 none none =
      ([⟨"resource.type = \"cloud_run_revision\" AND resource.labels.service_name = \"svc\" AND severity >= DEFAULT",
         ⟨-86400, 0⟩⟩,
        ⟨"resource.type = \"cloud_run_revision\" AND resource.labels.configuration_name = \"svc\" AND severity >= DEFAULT",
         ⟨-86400, 0⟩⟩,
        ⟨"resource.type = \"cloud_run_revision\" AND resource.labels.service_name = \"svc\" AND severity >= DEFAULT",
         ⟨-172800, 0⟩⟩],
       ⟨"escalated entry", none, none⟩) := by
  have h := (escalation_once_then_empty_no_error
    (fun q => if q.window.startT = -172800 then .ok ["escalated entry"] else .ok [])
    10 "svc" "proj" "cloud_run" .cloud_run 0 0 rfl rfl rfl
    (by intro q hq; have hw := logQueriesFor_window hq; simp [hw])).1
    _ _ rfl
  simpa using h

/-! ## Claim C7 -/

/-- C7: with an explicit `(start, end)` window, a span strictly above 48
hours fails with the invalid-time-range error before any query; a span of
exactly 48 hours proceeds to query exactly that window; and with any
explicit window within bounds every query issued carries exactly that
window — the escalation retry never occurs. -/
theorem explicit_window_bounds_no_escalation
    (client : LogQuery → Except PyError (List String)) (limit : Nat)
    (sn pid ty : String) (stE : ServiceType) (now1 now2 s eT : Int)
    (hsn : sanitize_identifier sn "service_name" = .ok sn)
    (hpid : sanitize_identifier pid "project_id" = .ok pid)
    (hty : ServiceType.ofString ty = some stE) :
    (eT - s > 172800 →
      get_gcp_logsTr client pid now1 now2 sn ty limit (some s) (some eT) =
        ([], ⟨"", none, some (.valueError "Time range cannot exceed 48 hours.")⟩)) ∧
    (eT - s = 172800 →
      (∀ (tr : List LogQuery) (entries : List String),
        runFilters client limit (logQueriesFor stE sn pid ⟨s, eT⟩) = (tr, .found entries) →
        get_gcp_logsTr client pid now1 now2 sn ty limit (some s) (some eT) =
          (tr, ⟨joinLines entries, none, none⟩)) ∧
      (∀ (tr : List LogQuery),
        runFilters client limit (logQueriesFor stE sn pid ⟨s, eT⟩) = (tr, .exhausted) →
        get_gcp_logsTr client pid now1 now2 sn ty limit (some s) (some eT) =
          (tr, ⟨"", none, none⟩))) ∧
    (eT - s ≤ 172800 →
      ∀ q ∈ (get_gcp_logsTr client pid now1 now2 sn ty limit (some s) (some eT)).1,
        q.window = ⟨s, eT⟩) := by
  refine ⟨fun hgt => get_gcp_logsTr_reject hsn hpid hty hgt, fun heq => ⟨?_, ?_⟩, ?_⟩
  · intro tr entries hr
    rw [get_gcp_logsTr_explicit hsn hpid hty (by omega), hr]
  · intro tr hr
    rw [get_gcp_logsTr_explicit hsn hpid hty (by omega), hr]
  · intro hle q hq
    rw [get_gcp_logsTr_explicit hsn hpid hty (by omega)] at hq
    have htr : q ∈ (runFilters client limit (logQueriesFor stE sn pid ⟨s, eT⟩)).1 := by
      rcases hr : runFilters client limit (logQueriesFor stE sn pid ⟨s, eT⟩) with ⟨tr, out⟩
      rw [hr] at hq
      cases out <;> simpa [hr] using hq
    obtain ⟨k, hk⟩ := @runFilters_trace_take client limit
      (logQueriesFor stE sn pid ⟨s, eT⟩)
    rw [hk] at htr
    exact logQueriesFor_window (List.take_subset k _ htr)

/-- Witness for C7: a 48-hours-plus-one-second span is rejected with the
invalid-time-range error; an exactly-48-hour span runs both cloud-run
filters over exactly that window and reports no error. -/
theorem explicit_window_bounds_no_escalation_witness :
    (get_gcp_logsTr (fun _ => .ok []) "proj" 0 0 "svc" "cloud_run" 10
        (some 0) (some 172801) =
      ([], ⟨"", none, some (.valueError "Time range cannot exceed 48 hours.")⟩)) ∧
    (get_gcp_logsTr (fun _ => .ok []) "proj" 0 0 "svc" "cloud_run" 10
        (some 0) (some 172800) =
      ([⟨"resource.type = \"cloud_run_revision\" AND resource.labels.service_name = \"svc\" AND severity >= DEFAULT",
         ⟨0, 172800⟩⟩,
        ⟨"resource.type = \"cloud_run_revision\" AND resource.labels.configuration_name = \"svc\" AND severity >= DEFAULT",
         ⟨0, 172800⟩⟩],
       ⟨"", none, none⟩)) := by
  constructor
  · exact (explicit_window_bounds_no_escalation (fun _ => .ok []) 10 "svc" "proj"
      "cloud_run" .cloud_run 0 0 0 172801 rfl rfl rfl).1 (by decide)
  · exact ((explicit_window_bounds_no_escalation (fun _ => .ok []) 10 "svc" "proj"
      "cloud_run" .cloud_run 0 0 0 172800 rfl rfl rfl).2.1 (by decide)).2 _ rfl

/-! ## Claim C8 -/

/-- C8: within one window, the candidate filters are executed in the order
given by the category table, and the entries of the first filter yielding
at least one entry are returned with no error; every earlier filter is
attempted (and appears earlier in the trace) before the succeeding one. -/
theorem first_nonempty_filter_in_table_order
    (client : LogQuery → Except PyError (List String)) (limit : Nat)
    (sn pid ty : String) (stE : ServiceType) (now1 now2 s eT : Int)
    (pre : List LogQuery) (q : LogQuery) (post : List LogQuery) (l : List String)
    (hsn : sanitize_identifier sn "service_name" = .ok sn)
    (hpid : sanitize_identifier pid "project_id" = .ok pid)
    (hty : ServiceType.ofString ty = some stE)
    (hle : eT - s ≤ 172800)
    (hsplit : logQueriesFor stE sn pid ⟨s, eT⟩ = pre ++ q :: post)
    (hpre : ∀ p ∈ pre, client p = .ok [])
    (hq : client q = .ok l)
    (hne : l.take limit ≠ []) :
    get_gcp_logsTr client pid now1 now2 sn ty limit (some s) (some eT) =
      (pre ++ [q], ⟨joinLines (l.take limit), none, none⟩) := by
  rw [get_gcp_logsTr_explicit hsn hpid hty (by omega), hsplit,
    runFilters_append_empty hpre, runFilters_cons_found hq hne]

/-- Witness for C8: for the cloud-run table `[service_name match,
configuration_name match]` and a client yielding entries only for the
second filter, the first filter is attempted first and the entries of the
second filter are returned with no error. -/
theorem first_nonempty_filter_in_table_order_witness :
    get_gcp_logsTr
        (fun q => if q.filter =
            "resource.type = \"cloud_run_revision\" AND resource.labels.configuration_name = \"svc\" AND severity >= DEFAULT"
          then .ok ["entry B"] else .ok [])
        "proj" 0 0 "svc" "cloud_run" 10 (some 0) (some 3600) =
      ([⟨"resource.type = \"cloud_run_revision\" AND resource.labels.service_name = \"svc\" AND severity >= DEFAULT",
         ⟨0, 3600⟩⟩,
        ⟨"resource.type = \"cloud_run_revision\" AND resource.labels.configuration_name = \"svc\" AND severity >= DEFAULT",
         ⟨0, 3600⟩⟩],
       ⟨"entry B", none, none⟩) := by
  have h := first_nonempty_filter_in_table_order
    (fun q => if q.filter =
        "resource.type = \"cloud_run_revision\" AND resource.labels.configuration_name = \"svc\" AND severity >= DEFAULT"
      then .ok ["entry B"] else .ok [])
    10 "svc" "proj" "cloud_run" .cloud_run 0 0 0 3600
    [⟨"resource.type = \"cloud_run_revision\" AND resource.labels.service_name = \"svc\" AND severity >= DEFAULT",
      ⟨0, 3600⟩⟩]
    ⟨"resource.type = \"cloud_run_revision\" AND resource.labels.configuration_name = \"svc\" AND severity >= DEFAULT",
      ⟨0, 3600⟩⟩
    [] ["entry B"] rfl rfl rfl (by decide) rfl
    (by intro p hp; simp only [List.mem_singleton] at hp; subst hp; rfl)
    rfl (by decide)
  simpa using h

/-! ## Claim C1 -/

/-- C1: evaluation of the router at the failing input.  The claim (and the
fallback comment in the source) say that a completion response failing JSON
parsing makes `supervisor_agent` return normally with the raw text as the
handler name; instead, because the `except` branch assigns `next_agent`
and `repo_url` but never `issue_content`, the `return` statement raises
`UnboundLocalError` for the malformed response `"log_explorer"`, aborting
the turn. -/
theorem router_fallback_raises_unbound_local :
    supervisor_agent (fun _ => none) "log_explorer" = .error .unboundLocal := rfl

/-! ## Claim C2 -/

/-- C2 counterexample: the compiled graph has an unconditional
`supervisor → log_explorer` edge, so a router decision of
`ask_for_repo_url` is followed by the log-answer node, not by the
dedicated ask-for-target node that the routing table of the spec selects. -/
theorem router_decision_ignored_counterexample :
    graphNext .supervisor { next_agent := some "ask_for_repo_url" } =
      some .log_explorer ∧
    specDecisionTarget "ask_for_repo_url" = some .ask_for_repo_url ∧
    graphNext .supervisor { next_agent := some "ask_for_repo_url" } ≠
      specDecisionTarget "ask_for_repo_url" := by
  exact ⟨rfl, rfl, by decide⟩

/-- C2 amended: after the router node the graph always proceeds to the
log-answer node regardless of the router decision; the only conditional
edge is after the log-answer node (to issue-detection, and on to filing,
exactly when a repo target is set, else to END); the ask-for-target,
solutions and code-fixer nodes are never the successor of any node. -/
theorem router_edge_amended (st : AgentState) :
    graphNext .supervisor st = some .log_explorer ∧
    (graphNext .log_explorer st =
      if pyTruthy st.git_repo_url then some .issue_creation else none) ∧
    graphNext .issue_creation st = some .github_issue_manager ∧
    entryPoint = .supervisor ∧
    (∀ n : Node, graphNext n st ≠ some .ask_for_repo_url ∧
      graphNext n st ≠ some .solutions ∧ graphNext n st ≠ some .code_fixer) := by
  refine ⟨rfl, ?_, rfl, rfl, ?_⟩
  · show (if route_after_log_explorer st = "issue_creation" then
        some Node.issue_creation else none) = _
    unfold route_after_log_explorer
    by_cases h : pyTruthy st.git_repo_url <;> simp [h]
  · intro n
    cases n
    case log_explorer =>
      refine ⟨?_, ?_, ?_⟩ <;> simp only [graphNext] <;> split <;> simp
    all_goals exact ⟨by simp [graphNext], by simp [graphNext], by simp [graphNext]⟩

/-! ## Claim C3 -/

/-- C3 counterexample: a thread state with a non-null repo target, routed
through the router node with a response that does not re-specify a repo
URL, comes out with `git_repo_url` reset to `None`: the router node
writes `git_repo_url` unconditionally from the response. -/
theorem repo_target_cleared_counterexample :
    (applyUpdate
        { service_name := some "my-svc", service_type := some "cloud_run",
          git_repo_url := some "https://github.com/example/repo" }
        (supervisor_node ⟨some "log_explorer", none, none, ["Routing to log_explorer"]⟩
          none
          { service_name := some "my-svc", service_type := some "cloud_run",
            git_repo_url := some "https://github.com/example/repo" })).git_repo_url =
      none ∧
    (some "https://github.com/example/repo" : Option String) ≠ none := by
  exact ⟨rfl, by decide⟩

/-- C3 amended: when the state already carries a truthy service name, the
router node preserves `service_name` and writes back the (defaulted)
`service_type`, but always overwrites `git_repo_url` with the extraction carried by the
router response — `None` when the utterance did not re-specify it;
no task-handler node writes any of the three fields, so handlers never
clear them. -/
theorem service_identity_preserved_repo_target_overwritten
    (st : AgentState) (route : RouteResult) (extracted : Option (String × String))
    (h : pyTruthy st.service_name = true) :
    (applyUpdate st (supervisor_node route extracted st)).service_name =
      st.service_name ∧
    (applyUpdate st (supervisor_node route extracted st)).service_type =
      some (st.service_type.getD "cloud_run") ∧
    (applyUpdate st (supervisor_node route extracted st)).git_repo_url =
      route.repo_url ∧
    (∀ r : String,
      (applyUpdate st (log_explorer_node_update r st)).service_name = st.service_name ∧
      (applyUpdate st (log_explorer_node_update r st)).service_type = st.service_type ∧
      (applyUpdate st (log_explorer_node_update r st)).git_repo_url = st.git_repo_url) ∧
    (∀ issues : List Issue,
      (applyUpdate st (issue_creation_node_update issues)).service_name = st.service_name ∧
      (applyUpdate st (issue_creation_node_update issues)).service_type = st.service_type ∧
      (applyUpdate st (issue_creation_node_update issues)).git_repo_url = st.git_repo_url) ∧
    (∀ hist : List String,
      (applyUpdate st (github_issue_manager_node_update hist)).service_name = st.service_name ∧
      (applyUpdate st (github_issue_manager_node_update hist)).service_type = st.service_type ∧
      (applyUpdate st (github_issue_manager_node_update hist)).git_repo_url = st.git_repo_url) ∧
    ((applyUpdate st ask_for_repo_url_node_update).service_name = st.service_name ∧
     (applyUpdate st ask_for_repo_url_node_update).service_type = st.service_type ∧
     (applyUpdate st ask_for_repo_url_node_update).git_repo_url = st.git_repo_url) := by
  have hsn : ∃ s, st.service_name = some s ∧ s.isEmpty = false := by
    cases hs : st.service_name with
    | none => rw [hs] at h; simp [pyTruthy] at h
    | some s => refine ⟨s, rfl, ?_⟩; rw [hs] at h; simpa [pyTruthy] using h
  obtain ⟨s, hs, hse⟩ := hsn
  refine ⟨?_, ?_, ?_, fun r => ⟨rfl, rfl, rfl⟩, fun i => ⟨rfl, rfl, rfl⟩,
    fun hh => ⟨rfl, rfl, rfl⟩, rfl, rfl, rfl⟩ <;>
  simp [supervisor_node, applyUpdate, pyTruthy, hs, hse]

/-- Witness for C3 (amended): a state with service identity and a router
response that extracts a new repo URL; the new URL replaces the old one
and the service name survives. -/
theorem service_identity_preserved_repo_target_overwritten_witness :
    (applyUpdate
        { service_name := some "my-svc", service_type := some "cloud_run",
          git_repo_url := some "https://github.com/example/repo" }
        (supervisor_node
          ⟨some "github_issue_manager", some "https://github.com/example/repo2", none,
           ["Routing to github_issue_manager"]⟩
          none
          { service_name := some "my-svc", service_type := some "cloud_run",
            git_repo_url := some "https://github.com/example/repo" })).git_repo_url =
      some "https://github.com/example/repo2" := by
  have h := service_identity_preserved_repo_target_overwritten
    { service_name := some "my-svc", service_type := some "cloud_run",
      git_repo_url := some "https://github.com/example/repo" }
    ⟨some "github_issue_manager", some "https://github.com/example/repo2", none,
     ["Routing to github_issue_manager"]⟩
    none (by decide)
  exact h.2.2.1

/-! ## Claim C4 -/

/-- C4 counterexample: an exception raised by the completion collaborator
inside the log-answer handler is NOT caught at the handler boundary — the
handler propagates it instead of returning a user-visible message. -/
theorem log_answer_completion_exception_propagates :
    log_explorer_agent ⟨"line one", none, none⟩ (.ok "summary text")
        (.error (.apiError "completion unavailable")) "my-svc" "cloud_run"
        "what errors occurred?" = .error (.apiError "completion unavailable") := rfl

/-- C4 amended: a log-fetch error is converted by the log-answer handler
into a normal user-visible message, and the service boundary converts any
escaped exception into a failed response, but a completion-collaborator
exception inside the log-answer handler propagates out of the handler
(aborting the workflow invocation) instead of being caught at the handler
boundary. -/
theorem handler_error_boundaries_amended
    (fetchLogs : String) (e : PyError) (s : String)
    (summarize answer : Except PyError String) (sn ty q : String) :
    (∀ (logs : String) (pageToken : Option String),
      log_explorer_agent ⟨logs, pageToken, some e⟩ summarize answer sn ty q =
        .ok (fetchErrorMsg e)) ∧
    (fetchLogs.isEmpty = false →
      log_explorer_agent ⟨fetchLogs, none, none⟩ (.ok s) (.error e) sn ty q =
        .error e) ∧
    a2a_execute_outcome (.error e) = ⟨false, some e.str⟩ := by
  refine ⟨fun logs pt => rfl, ?_, rfl⟩
  intro hne
  unfold log_explorer_agent
  simp only [hne, Bool.false_eq_true, if_false]
  split
  · rename_i e2 heq
    split at heq <;> simp at heq
  · rfl

/-- Witness for C4 (amended): the fetch-error path returns a normal
message, and the completion-failure path propagates the exception. -/
theorem handler_error_boundaries_amended_witness :
    log_explorer_agent ⟨"", none, some (.valueError "bad id")⟩ (.ok "x")
        (.ok "y") "my-svc" "cloud_run" "q" = .ok (fetchErrorMsg (.valueError "bad id")) ∧
    log_explorer_agent ⟨"line one", none, none⟩ (.ok "x")
        (.error (.apiError "quota")) "my-svc" "cloud_run" "q" =
      .error (.apiError "quota") := by
  have h := handler_error_boundaries_amended "line one" (.apiError "quota") "x"
    (.ok "x") (.error (.apiError "quota")) "my-svc" "cloud_run" "q"
  have h2 := handler_error_boundaries_amended "line one" (.valueError "bad id") "x"
    (.ok "x") (.ok "y") "my-svc" "cloud_run" "q"
  exact ⟨h2.1 "" none, h.2.1 (by decide)⟩

/-! ## Claim C9 -/

set_option maxRecDepth 8192

/-- C9: evaluation of the filing loop at the failing input.  Existing
tracker items: `"AB"` open (#1) and `"A"` closed without `wontfix` (#2);
batch: Issues `"AB"` then `"A"`.  Per the claim (and the source comment
reading: Only create if we did not skip in the above logic), the second
Issue must be created since its only title match is closed without
`wontfix`; instead the accumulated skip reason for `"AB"` — which starts
with the quoted-title prefix for `"A"` — makes the guard on line 105
suppress the creation, so
nothing is created and the second Issue is not counted as skipped
either. -/
theorem filing_reason_guard_suppresses_creation :
    github_issue_filing
        [⟨"AB", 1, "open", []⟩, ⟨"A", 2, "closed", []⟩]
        (fun _ => none)
        [⟨"AB", "High", []⟩, ⟨"A", "Low", []⟩] =
      { created_issues := 0, skipped_issues := 1,
        skipped_reasons := ["Issue \x27AB...\x27 already exists and is open (#1)"],
        error_messages := [], createdTitles := [] } := by
  decide

/-- A filing-loop step on an issue whose title is absent from the
pre-computed existing-titles list (tracker accepting creation): the issue
is created, nothing else changes. -/
theorem filingStep_fresh (existing : List ExistingIssue) (acc : FilingAcc)
    (issue : Issue)
    (h : (existing.map (fun e => e.title)).contains (issue.description.take 256) = false) :
    filingStep (existing.map (fun e => e.title)) existing (fun _ => none) acc issue =
      { acc with created_issues := acc.created_issues + 1,
                 createdTitles := acc.createdTitles ++ [issue.description.take 256] } := by
  unfold filingStep
  simp only [h]
  simp

/-! ## Claim C10 -/

/-- C10: the set of existing tracker titles is computed once before the
filing loop and never updated as items are created: two Issues in the
same batch with equal (fresh) titles are both created. -/
theorem intra_batch_no_dedup
    (existing : List ExistingIssue) (d p1 p2 : String) (l1 l2 : List String)
    (h : (existing.map (fun e => e.title)).contains (d.take 256) = false) :
    (github_issue_filing existing (fun _ => none)
        [⟨d, p1, l1⟩, ⟨d, p2, l2⟩]).createdTitles = [d.take 256, d.take 256] ∧
    (github_issue_filing existing (fun _ => none)
        [⟨d, p1, l1⟩, ⟨d, p2, l2⟩]).created_issues = 2 ∧
    (github_issue_filing existing (fun _ => none)
        [⟨d, p1, l1⟩, ⟨d, p2, l2⟩]).skipped_issues = 0 := by
  unfold github_issue_filing
  simp only [filingLoop]
  rw [filingStep_fresh existing _ ⟨d, p1, l1⟩ h]
  rw [filingStep_fresh existing _ ⟨d, p2, l2⟩ h]
  simp

/-- Witness for C10: a tracker with one unrelated open item and a batch of
two Issues with the same fresh description — both are created. -/
theorem intra_batch_no_dedup_witness :
    (github_issue_filing [⟨"other", 7, "open", []⟩] (fun _ => none)
        [⟨"dup issue", "High", []⟩, ⟨"dup issue", "Low", []⟩]).createdTitles =
      ["dup issue".take 256, "dup issue".take 256] ∧
    (github_issue_filing [⟨"other", 7, "open", []⟩] (fun _ => none)
        [⟨"dup issue", "High", []⟩, ⟨"dup issue", "Low", []⟩]).created_issues = 2 ∧
    (github_issue_filing [⟨"other", 7, "open", []⟩] (fun _ => none)
        [⟨"dup issue", "High", []⟩, ⟨"dup issue", "Low", []⟩]).skipped_issues = 0 :=
  intra_batch_no_dedup [⟨"other", 7, "open", []⟩] "dup issue" "High" "Low" [] []
    (by decide)

end LogAttacker
